import Mathlib

/-!
Verification of the retry orchestration engine
(`source/common/router/retry_state_impl.cc`).

The development is a shallow embedding of the C++ code: machine integers
become `Nat` (with an explicit `% 2 ^ 32` where a `uint64_t` is stored into a
`uint32_t` field), header maps become records of `Option String` fields,
and the side effects of a `shouldRetry` call on the shared cluster limiter,
statistics counters and backoff timer are returned explicitly in an
`Effects` record, one counter per external call the C++ code makes.
-/

/-- Retry-on bitmask constants. Modelled from the spec: the numeric values
live in `envoy/router/router.h`, which is not part of the sources; the spec
only requires a bit-flag type with these named, distinct variants, so we
assign distinct powers of two. -/
def RetryPolicy.RETRY_ON_5XX : Nat := 1

def RetryPolicy.RETRY_ON_GATEWAY_ERROR : Nat := 2

def RetryPolicy.RETRY_ON_CONNECT_FAILURE : Nat := 4

def RetryPolicy.RETRY_ON_RETRIABLE_4XX : Nat := 8

def RetryPolicy.RETRY_ON_REFUSED_STREAM : Nat := 16

def RetryPolicy.RETRY_ON_GRPC_CANCELLED : Nat := 32

def RetryPolicy.RETRY_ON_GRPC_DEADLINE_EXCEEDED : Nat := 64

def RetryPolicy.RETRY_ON_GRPC_RESOURCE_EXHAUSTED : Nat := 128

def RetryPolicy.RETRY_ON_GRPC_UNAVAILABLE : Nat := 256

def RetryPolicy.RETRY_ON_GRPC_INTERNAL : Nat := 512

def RetryPolicy.RETRY_ON_RETRIABLE_STATUS_CODES : Nat := 1024

/-- The route retry policy, as consumed by `RetryStateImpl`: the retry-on
bitmask (`retryOn()`), the retry count (`numRetries()`), and the configured
retriable status codes (`retriableStatusCodes()`).  Host/priority predicates
and the host-selection cap are opaque to every claim and omitted. -/
structure RetryPolicy where
  retryOn : Nat
  numRetries : Nat
  retriableStatusCodes : List Nat
deriving Repr, DecidableEq

/-- The request-header directives `RetryStateImpl` consumes, each an optional
header value (`none` = header absent, mirroring a null header entry). -/
structure RequestHeaders where
  envoyRetryOn : Option String
  envoyRetryGrpcOn : Option String
  envoyMaxRetries : Option String
  envoyRetriableStatusCodes : Option String
deriving Repr, DecidableEq

/-- The response-header facts `wouldRetryFromHeaders` reads: the HTTP status
(`Http::Utility::getResponseStatus`), presence of the `x-envoy-overloaded`
and `x-envoy-ratelimited` headers, and the parsed gRPC status when present
(`Grpc::Common::getGrpcStatus`). -/
structure ResponseHeaders where
  status : Nat
  envoyOverloaded : Bool
  envoyRateLimited : Bool
  grpcStatus : Option Nat
deriving Repr, DecidableEq

/-- gRPC status codes. Modelled from the spec: `Grpc::Status` lives outside
the sources; these are the canonical gRPC code numbers. -/
def Grpc.Canceled : Nat := 1

def Grpc.DeadlineExceeded : Nat := 4

def Grpc.ResourceExhausted : Nat := 8

def Grpc.Internal : Nat := 13

def Grpc.Unavailable : Nat := 14

/-- Modelled from the spec: `Http::CodeUtility::is5xx` (status 500-599). -/
def CodeUtility.is5xx (code : Nat) : Bool :=
  500 ≤ code && code ≤ 599

/-- Modelled from the spec: `Http::CodeUtility::isGatewayError`
(gateway-class errors 502/503/504). -/
def CodeUtility.isGatewayError (code : Nat) : Bool :=
  code == 502 || code == 503 || code == 504

/-- Split a character list at every occurrence of `delim`; the second
argument accumulates the current token in reverse. -/
def StringUtil.splitTokenAux (delim : Char) : List Char → List Char → List (List Char)
  | [], acc => [acc.reverse]
  | c :: rest, acc =>
    if c = delim then acc.reverse :: StringUtil.splitTokenAux delim rest []
    else StringUtil.splitTokenAux delim rest (c :: acc)

/-- Modelled from the spec: `StringUtil::splitToken(source, ",")` splits a
comma-separated list and drops empty tokens. -/
def StringUtil.splitToken (source : String) : List String :=
  ((StringUtil.splitTokenAux ',' source.toList []).filter (fun tok => tok ≠ [])).map
    (fun tok => String.mk tok)

/-- ASCII decimal digit test (codepoints 48-57). -/
def StringUtil.isAsciiDigit (c : Char) : Bool :=
  48 ≤ c.toNat && c.toNat ≤ 57

/-- Modelled from the spec: `StringUtil::atoull` parses an unsigned decimal
integer, rejecting malformed input ("malformed integers are silently
ignored") and values that overflow a `uint64_t`. -/
def StringUtil.atoull (str : String) : Option Nat :=
  if str.toList ≠ [] ∧ str.toList.all StringUtil.isAsciiDigit then
    let out := str.toList.foldl (fun n c => n * 10 + (c.toNat - 48)) 0
    if out < 2 ^ 64 then some out else none
  else none

/-- The four-valued decision enum returned by `shouldRetry`. -/
inductive RetryStatus where
  | Yes
  | No
  | NoOverflow
  | NoRetryLimitExceeded
deriving Repr, DecidableEq

/-- The mutable per-request retry state of `RetryStateImpl`: the merged
retry-on bitmask `retry_on_`, the countdown `retries_remaining_`, the merged
retriable status codes, and whether a retry callback is armed (`callback_`
non-null, which in the C++ object coincides with holding one admission token
and having the backoff timer pending). -/
structure RetryStateImpl where
  retryOn : Nat
  retriesRemaining : Nat
  retriableStatusCodes : List Nat
  callbackArmed : Bool
deriving Repr, DecidableEq

/-- One external-effect record per operation: how many times the operation
called the shared limiter's `inc()` / `dec()`, the statistics counters
`upstream_rq_retry_success_` / `upstream_rq_retry_overflow_` /
`upstream_rq_retry_`, and the backoff timer's `enableTimer`. -/
structure Effects where
  limiterIncs : Nat := 0
  limiterDecs : Nat := 0
  retrySuccessIncs : Nat := 0
  retryOverflowIncs : Nat := 0
  retryIncs : Nat := 0
  timerArms : Nat := 0
deriving Repr, DecidableEq

/-- Pointwise sum of two effect records (sequential composition). -/
def Effects.add (a b : Effects) : Effects where
  limiterIncs := a.limiterIncs + b.limiterIncs
  limiterDecs := a.limiterDecs + b.limiterDecs
  retrySuccessIncs := a.retrySuccessIncs + b.retrySuccessIncs
  retryOverflowIncs := a.retryOverflowIncs + b.retryOverflowIncs
  retryIncs := a.retryIncs + b.retryIncs
  timerArms := a.timerArms + b.timerArms

/-- `RetryStateImpl::parseRetryOn`: fold the comma-separated tokens, OR-ing
in the bit of each recognized token; unrecognized tokens are ignored.
Token strings are the fixed vocabulary of `EnvoyRetryOnValues`. -/
def RetryStateImpl.parseRetryOn (config : String) : Nat :=
  (StringUtil.splitToken config).foldl
    (fun ret retry_on =>
      if retry_on = "5xx" then ret ||| RetryPolicy.RETRY_ON_5XX
      else if retry_on = "gateway-error" then ret ||| RetryPolicy.RETRY_ON_GATEWAY_ERROR
      else if retry_on = "connect-failure" then ret ||| RetryPolicy.RETRY_ON_CONNECT_FAILURE
      else if retry_on = "retriable-4xx" then ret ||| RetryPolicy.RETRY_ON_RETRIABLE_4XX
      else if retry_on = "refused-stream" then ret ||| RetryPolicy.RETRY_ON_REFUSED_STREAM
      else if retry_on = "retriable-status-codes" then
        ret ||| RetryPolicy.RETRY_ON_RETRIABLE_STATUS_CODES
      else ret)
    0

/-- `RetryStateImpl::parseRetryGrpcOn`: same folding over the gRPC retry-on
vocabulary of `EnvoyRetryOnGrpcValues`. -/
def RetryStateImpl.parseRetryGrpcOn (retry_grpc_on_header : String) : Nat :=
  (StringUtil.splitToken retry_grpc_on_header).foldl
    (fun ret retry_on =>
      if retry_on = "cancelled" then ret ||| RetryPolicy.RETRY_ON_GRPC_CANCELLED
      else if retry_on = "deadline-exceeded" then
        ret ||| RetryPolicy.RETRY_ON_GRPC_DEADLINE_EXCEEDED
      else if retry_on = "resource-exhausted" then
        ret ||| RetryPolicy.RETRY_ON_GRPC_RESOURCE_EXHAUSTED
      else if retry_on = "unavailable" then ret ||| RetryPolicy.RETRY_ON_GRPC_UNAVAILABLE
      else if retry_on = "internal" then ret ||| RetryPolicy.RETRY_ON_GRPC_INTERNAL
      else ret)
    0

/-- The merged retry-on bitmask computed by the constructor: the route
policy's `retryOn()` OR'd with the parsed request-header retry-on lists
(lines 60, 68-73 of the constructor). -/
def RetryStateImpl.mergedRetryOn (route_policy : RetryPolicy)
    (request_headers : RequestHeaders) : Nat :=
  let retry_on0 := route_policy.retryOn
  let retry_on1 :=
    match request_headers.envoyRetryOn with
    | some v => retry_on0 ||| RetryStateImpl.parseRetryOn v
    | none => retry_on0
  match request_headers.envoyRetryGrpcOn with
  | some v => retry_on1 ||| RetryStateImpl.parseRetryGrpcOn v
  | none => retry_on1

/-- The C++ constructor `RetryStateImpl::RetryStateImpl`.  Modelled from the
spec where the header file is missing from the sources: the in-class default
initializer of `retries_remaining_` is not under `src/`, and the spec records
the resulting value as "initialized to max(route count, 1)", so the
`std::max(retries_remaining_, route_policy.numRetries())` of line 61 is
embedded as `max 1 route_policy.numRetries`.  The max-retries header is only
consulted when the merged bitmask is non-zero (line 74); the parsed
`uint64_t` is stored into the `uint32_t` field `retries_remaining_`, hence
the `% 2 ^ 32`.  Header-declared retriable status codes are appended to the
route policy's list (lines 82-90), also truncated to `uint32_t`. -/
def RetryStateImpl.construct (route_policy : RetryPolicy)
    (request_headers : RequestHeaders) : RetryStateImpl :=
  let retry_on := RetryStateImpl.mergedRetryOn route_policy request_headers
  let retries0 : Nat := max 1 route_policy.numRetries
  let retries1 : Nat :=
    if retry_on ≠ 0 then
      match request_headers.envoyMaxRetries with
      | some max_retries =>
        match StringUtil.atoull max_retries with
        | some temp => temp % 2 ^ 32
        | none => retries0
      | none => retries0
    else retries0
  let codes : List Nat :=
    match request_headers.envoyRetriableStatusCodes with
    | some v =>
      route_policy.retriableStatusCodes ++
        ((StringUtil.splitToken v).filterMap StringUtil.atoull).map (fun out => out % 2 ^ 32)
    | none => route_policy.retriableStatusCodes
  { retryOn := retry_on
    retriesRemaining := retries1
    retriableStatusCodes := codes
    callbackArmed := false }

/-- `RetryStateImpl::create`: allocates a state only when the retry-on
header is present, or the gRPC retry-on header is present, or the route
policy's bitmask is non-zero; then unconditionally removes the retry-on,
gRPC retry-on and max-retries request headers.  Returns the optional state
together with the request headers as left behind. -/
def RetryStateImpl.create (route_policy : RetryPolicy)
    (request_headers : RequestHeaders) : Option RetryStateImpl × RequestHeaders :=
  let ret : Option RetryStateImpl :=
    if request_headers.envoyRetryOn.isSome || request_headers.envoyRetryGrpcOn.isSome
        || route_policy.retryOn != 0 then
      some (RetryStateImpl.construct route_policy request_headers)
    else
      none
  (ret,
    { request_headers with
      envoyRetryOn := none
      envoyRetryGrpcOn := none
      envoyMaxRetries := none })

/-- `RetryStateImpl::resetRetry`: when a callback is armed, decrement the
shared limiter once and clear the callback; otherwise do nothing. -/
def RetryStateImpl.resetRetry (st : RetryStateImpl) : RetryStateImpl × Effects :=
  if st.callbackArmed then
    ({ st with callbackArmed := false }, { limiterDecs := 1 })
  else
    (st, {})

/-- The destructor `RetryStateImpl::~RetryStateImpl` just calls
`resetRetry`; only its external effects matter. -/
def RetryStateImpl.destruct (st : RetryStateImpl) : Effects :=
  (RetryStateImpl.resetRetry st).2

/-- Result of one `shouldRetry` call: the returned status, the state after
the call, and the external effects performed during the call. -/
structure DecideResult where
  status : RetryStatus
  state : RetryStateImpl
  effects : Effects
deriving Repr, DecidableEq

/-- `RetryStateImpl::shouldRetry`.  The outcomes of the two external boolean
queries the code makes — `retries().canCreate()` on the shared limiter and
the per-call `featureEnabled("upstream.use_retry", 100)` sample — are passed
in as inputs, since both depend on collaborator state outside this object. -/
def RetryStateImpl.shouldRetry (st : RetryStateImpl)
    (would_retry canCreate featureEnabled : Bool) : DecideResult :=
  let successIncs : Nat := if st.callbackArmed && !would_retry then 1 else 0
  let reset := RetryStateImpl.resetRetry st
  let st1 := reset.1
  let eff0 : Effects := { reset.2 with retrySuccessIncs := successIncs }
  if st1.retriesRemaining = 0 then
    { status := RetryStatus.NoRetryLimitExceeded, state := st1, effects := eff0 }
  else
    let st2 := { st1 with retriesRemaining := st1.retriesRemaining - 1 }
    if !would_retry then
      { status := RetryStatus.No, state := st2, effects := eff0 }
    else if !canCreate then
      { status := RetryStatus.NoOverflow, state := st2,
        effects := { eff0 with retryOverflowIncs := 1 } }
    else if !featureEnabled then
      { status := RetryStatus.No, state := st2, effects := eff0 }
    else
      { status := RetryStatus.Yes, state := { st2 with callbackArmed := true },
        effects := { eff0 with limiterIncs := 1, retryIncs := 1, timerArms := 1 } }

/-- `RetryStateImpl::wouldRetryFromHeaders`: the sequential predicate over a
response outcome, hard vetoes first. -/
def RetryStateImpl.wouldRetryFromHeaders (st : RetryStateImpl)
    (response_headers : ResponseHeaders) : Bool :=
  if response_headers.envoyOverloaded then false
  else if response_headers.envoyRateLimited then false
  else if (st.retryOn &&& RetryPolicy.RETRY_ON_5XX != 0)
      && CodeUtility.is5xx response_headers.status then true
  else if (st.retryOn &&& RetryPolicy.RETRY_ON_GATEWAY_ERROR != 0)
      && CodeUtility.isGatewayError response_headers.status then true
  else if (st.retryOn &&& RetryPolicy.RETRY_ON_RETRIABLE_4XX != 0)
      && (response_headers.status == 409) then true
  else if (st.retryOn &&& RetryPolicy.RETRY_ON_RETRIABLE_STATUS_CODES != 0)
      && st.retriableStatusCodes.contains response_headers.status then true
  else if st.retryOn &&&
      (RetryPolicy.RETRY_ON_GRPC_CANCELLED ||| RetryPolicy.RETRY_ON_GRPC_DEADLINE_EXCEEDED |||
        RetryPolicy.RETRY_ON_GRPC_RESOURCE_EXHAUSTED ||| RetryPolicy.RETRY_ON_GRPC_UNAVAILABLE |||
        RetryPolicy.RETRY_ON_GRPC_INTERNAL) != 0 then
    match response_headers.grpcStatus with
    | some status =>
      (status == Grpc.Canceled && (st.retryOn &&& RetryPolicy.RETRY_ON_GRPC_CANCELLED != 0)) ||
      (status == Grpc.DeadlineExceeded
        && (st.retryOn &&& RetryPolicy.RETRY_ON_GRPC_DEADLINE_EXCEEDED != 0)) ||
      (status == Grpc.ResourceExhausted
        && (st.retryOn &&& RetryPolicy.RETRY_ON_GRPC_RESOURCE_EXHAUSTED != 0)) ||
      (status == Grpc.Unavailable
        && (st.retryOn &&& RetryPolicy.RETRY_ON_GRPC_UNAVAILABLE != 0)) ||
      (status == Grpc.Internal && (st.retryOn &&& RetryPolicy.RETRY_ON_GRPC_INTERNAL != 0))
    | none => false
  else false

/-- The per-call inputs of one `shouldRetry` call in a trace: the predicate
outcome and the two external boolean query results. -/
structure CallInput where
  would_retry : Bool
  canCreate : Bool
  featureEnabled : Bool
deriving Repr, DecidableEq

/-- Run a sequence of `shouldRetry` calls, threading the state and summing
the external effects. -/
def runCalls (st : RetryStateImpl) : List CallInput → RetryStateImpl × Effects
  | [] => (st, {})
  | c :: rest =>
    let r := RetryStateImpl.shouldRetry st c.would_retry c.canCreate c.featureEnabled
    let next := runCalls r.state rest
    (next.1, Effects.add r.effects next.2)

/-- Total external effects of a full lifetime: a sequence of `shouldRetry`
calls followed by destruction of the object. -/
def lifetimeEffects (st : RetryStateImpl) (calls : List CallInput) : Effects :=
  Effects.add (runCalls st calls).2 (RetryStateImpl.destruct (runCalls st calls).1)

/-! ## Helper lemmas -/

/-- One `shouldRetry` call keeps the limiter ledger balanced: the
increments it performs plus the token held at entry equal the decrements it
performs plus the token held at exit. -/
lemma shouldRetry_limiter_balance (st : RetryStateImpl) (wr cc fe : Bool) :
    (RetryStateImpl.shouldRetry st wr cc fe).effects.limiterIncs
        + (if st.callbackArmed then 1 else 0)
      = (RetryStateImpl.shouldRetry st wr cc fe).effects.limiterDecs
        + (if (RetryStateImpl.shouldRetry st wr cc fe).state.callbackArmed then 1 else 0) := by
  unfold RetryStateImpl.shouldRetry RetryStateImpl.resetRetry
  by_cases h : st.callbackArmed <;> simp [h] <;> split_ifs <;> simp_all

/-- A run of `shouldRetry` calls keeps the limiter ledger balanced. -/
lemma runCalls_limiter_balance (calls : List CallInput) (st : RetryStateImpl) :
    (runCalls st calls).2.limiterIncs + (if st.callbackArmed then 1 else 0)
      = (runCalls st calls).2.limiterDecs
        + (if (runCalls st calls).1.callbackArmed then 1 else 0) := by
  induction calls generalizing st with
  | nil => simp [runCalls]
  | cons c rest ih =>
    have h1 := shouldRetry_limiter_balance st c.would_retry c.canCreate c.featureEnabled
    have h2 := ih (RetryStateImpl.shouldRetry st c.would_retry c.canCreate c.featureEnabled).state
    simp only [runCalls, Effects.add] at h1 h2 ⊢
    omega

/-! ## Claims -/

/-- Claim C1: for every state and every `shouldRetry` call, if
`retries_remaining` is 0 at call time the call returns
`NoRetryLimitExceeded` (hence never `Yes`) and leaves `retries_remaining`
at 0; otherwise, when the effective retry-on bitmask is non-zero, the call
decrements `retries_remaining` by exactly one (`new + 1 = old`, so the
counter never goes below zero), whatever status it returns. -/
theorem claim1_shouldRetry_budget (st : RetryStateImpl) (wr cc fe : Bool) :
    (st.retriesRemaining = 0 →
      (RetryStateImpl.shouldRetry st wr cc fe).status = RetryStatus.NoRetryLimitExceeded ∧
      (RetryStateImpl.shouldRetry st wr cc fe).state.retriesRemaining = 0) ∧
    (st.retriesRemaining ≠ 0 → st.retryOn ≠ 0 →
      (RetryStateImpl.shouldRetry st wr cc fe).state.retriesRemaining + 1
        = st.retriesRemaining) := by
  constructor
  · intro h0
    by_cases h : st.callbackArmed <;>
      simp [RetryStateImpl.shouldRetry, RetryStateImpl.resetRetry, h, h0]
  · intro h0 hOn
    by_cases h : st.callbackArmed <;> cases wr <;> cases cc <;> cases fe <;>
      simp [RetryStateImpl.shouldRetry, RetryStateImpl.resetRetry, h, h0] <;> omega

/-- Witness for C1 at concrete states: a call at `retries_remaining = 0`
returns `NoRetryLimitExceeded` and stays at 0; a call at
`retries_remaining = 2` with bitmask 1 lands at 1. -/
theorem claim1_witness :
    ((RetryStateImpl.shouldRetry ⟨1, 0, [], false⟩ true true true).status
        = RetryStatus.NoRetryLimitExceeded ∧
      (RetryStateImpl.shouldRetry ⟨1, 0, [], false⟩ true true true).state.retriesRemaining
        = 0) ∧
    (RetryStateImpl.shouldRetry ⟨1, 2, [], false⟩ false true true).state.retriesRemaining + 1
      = 2 :=
  ⟨(claim1_shouldRetry_budget ⟨1, 0, [], false⟩ true true true).1 rfl,
    (claim1_shouldRetry_budget ⟨1, 2, [], false⟩ false true true).2
      (by decide) (by decide)⟩

/-- Claim C3: `wouldRetryFromHeaders` returns false whenever the response
carries the overloaded flag or the rate-limited flag, for every state
(whatever retry-on bits are set) and every response status. -/
theorem claim3_hard_veto (st : RetryStateImpl) (resp : ResponseHeaders)
    (h : resp.envoyOverloaded = true ∨ resp.envoyRateLimited = true) :
    RetryStateImpl.wouldRetryFromHeaders st resp = false := by
  unfold RetryStateImpl.wouldRetryFromHeaders
  rcases h with h | h <;> simp [h]

/-- Witness for C3: every retry-on bit set, status 503 (which would match
the 5xx condition), a listed retriable code, yet overloaded vetoes. -/
theorem claim3_witness :
    RetryStateImpl.wouldRetryFromHeaders ⟨2047, 3, [503], false⟩ ⟨503, true, false, none⟩
      = false :=
  claim3_hard_veto ⟨2047, 3, [503], false⟩ ⟨503, true, false, none⟩ (Or.inl rfl)

/-- Claim C2: admission token accounting is balanced.  For every sequence
of `shouldRetry` calls followed by destruction, starting from a state with
no callback armed (as produced by the constructor), the number of calls to
the shared limiter's `inc()` equals the number of calls to its `dec()`;
moreover release is idempotent: `resetRetry` on an unarmed state performs
no decrement, and destruction while armed decrements exactly once. -/
theorem claim2_token_balance :
    (∀ (st : RetryStateImpl) (calls : List CallInput), st.callbackArmed = false →
      (lifetimeEffects st calls).limiterIncs = (lifetimeEffects st calls).limiterDecs) ∧
    (∀ st : RetryStateImpl, st.callbackArmed = false →
      (RetryStateImpl.resetRetry st).2.limiterDecs = 0) ∧
    (∀ st : RetryStateImpl, st.callbackArmed = true →
      (RetryStateImpl.destruct st).limiterDecs = 1) := by
  refine ⟨?_, ?_, ?_⟩
  · intro st calls h
    have hb := runCalls_limiter_balance calls st
    rw [h] at hb
    unfold lifetimeEffects RetryStateImpl.destruct RetryStateImpl.resetRetry
    by_cases hf : (runCalls st calls).1.callbackArmed <;>
      simp only [hf, if_true, if_false, ite_true, ite_false, Effects.add] at hb ⊢ <;>
      simp_all
  · intro st h
    simp [RetryStateImpl.resetRetry, h]
  · intro st h
    simp [RetryStateImpl.destruct, RetryStateImpl.resetRetry, h]

/-- Witness for C2: a lifetime with one armed retry (`Yes`) and one closing
call, starting unarmed; plus the two idempotence facts at concrete states. -/
theorem claim2_witness :
    ((lifetimeEffects ⟨1, 2, [], false⟩ [⟨true, true, true⟩, ⟨false, true, true⟩]).limiterIncs
      = (lifetimeEffects ⟨1, 2, [], false⟩
          [⟨true, true, true⟩, ⟨false, true, true⟩]).limiterDecs) ∧
    (RetryStateImpl.resetRetry ⟨1, 2, [], false⟩).2.limiterDecs = 0 ∧
    (RetryStateImpl.destruct ⟨1, 1, [], true⟩).limiterDecs = 1 :=
  ⟨claim2_token_balance.1 ⟨1, 2, [], false⟩ [⟨true, true, true⟩, ⟨false, true, true⟩] rfl,
    claim2_token_balance.2.1 ⟨1, 2, [], false⟩ rfl,
    claim2_token_balance.2.2 ⟨1, 1, [], true⟩ rfl⟩

/-- Claim C8: a `shouldRetry` call with budget left (`retries_remaining` not
0), `would_retry` true and a successful limiter capacity check, but the
per-call `upstream.use_retry` feature gate disabled, returns `No`; it never
increments the shared limiter (no slot acquired, so none can leak), performs
exactly the mandatory release of a token held on entry and nothing more,
arms no timer, and registers no continuation. -/
theorem claim8_feature_gate_disabled (st : RetryStateImpl)
    (h : st.retriesRemaining ≠ 0) :
    (RetryStateImpl.shouldRetry st true true false).status = RetryStatus.No ∧
    (RetryStateImpl.shouldRetry st true true false).effects.limiterIncs = 0 ∧
    (RetryStateImpl.shouldRetry st true true false).effects.limiterDecs
      = (if st.callbackArmed then 1 else 0) ∧
    (RetryStateImpl.shouldRetry st true true false).effects.timerArms = 0 ∧
    (RetryStateImpl.shouldRetry st true true false).state.callbackArmed = false := by
  by_cases hb : st.callbackArmed <;>
    simp [RetryStateImpl.shouldRetry, RetryStateImpl.resetRetry, hb, h]

/-- Witness for C8: an idle state with budget 2 and the gate disabled. -/
theorem claim8_witness :
    (RetryStateImpl.shouldRetry ⟨1, 2, [], false⟩ true true false).status = RetryStatus.No ∧
    (RetryStateImpl.shouldRetry ⟨1, 2, [], false⟩ true true false).effects.limiterIncs = 0 ∧
    (RetryStateImpl.shouldRetry ⟨1, 2, [], false⟩ true true false).effects.limiterDecs
      = (if (⟨1, 2, [], false⟩ : RetryStateImpl).callbackArmed then 1 else 0) ∧
    (RetryStateImpl.shouldRetry ⟨1, 2, [], false⟩ true true false).effects.timerArms = 0 ∧
    (RetryStateImpl.shouldRetry ⟨1, 2, [], false⟩ true true false).state.callbackArmed
      = false :=
  claim8_feature_gate_disabled ⟨1, 2, [], false⟩ (by decide)

/-- Counterexample for claim C4 as stated: with a zero route bitmask and a
retry-on header whose only token is unrecognized — so no non-empty retry-on
set is declared by any signal (`parseRetryOn "bogus" = 0`) — `create` still
returns a present state, and that state is inert (merged bitmask 0). -/
theorem claim4_counterexample :
    RetryStateImpl.parseRetryOn "bogus" = 0 ∧
    (RetryStateImpl.create ⟨0, 1, []⟩ ⟨some "bogus", none, none, none⟩).1
      = some ⟨0, 1, [], false⟩ := by
  decide

/-- Claim C4 as amended: `create` returns "no retry state" exactly when the
retry-on header is absent, the gRPC retry-on header is absent, and the route
policy's bitmask is zero.  Presence of either header — even one whose
tokens all fail to parse, yielding a state with an empty effective bitmask —
produces a present state; absence remains observably distinguishable from a
present-but-inert state (`none` vs `some`). -/
theorem claim4_amended (p : RetryPolicy) (h : RequestHeaders) :
    (RetryStateImpl.create p h).1 = none ↔
      h.envoyRetryOn = none ∧ h.envoyRetryGrpcOn = none ∧ p.retryOn = 0 := by
  unfold RetryStateImpl.create
  split_ifs with hc
  · simp only [bne_iff_ne, Bool.or_eq_true, Option.isSome_iff_exists, ne_eq] at hc
    constructor
    · intro habs
      exact absurd habs (by simp)
    · rintro ⟨h1, h2, h3⟩
      rcases hc with (⟨v, hv⟩ | ⟨v, hv⟩) | hv <;> simp_all
  · simp only [Bool.or_eq_true, Option.isSome_iff_exists, bne_iff_ne, ne_eq, not_or,
      not_exists, not_not] at hc
    obtain ⟨⟨h1, h2⟩, h3⟩ := hc
    simp [Option.eq_none_iff_forall_not_mem, h3]
    constructor
    · intro v hv
      exact h1 v hv
    · intro v hv
      exact h2 v hv

/-- Witness for C4 (amended) at concrete inputs: no headers and a zero
bitmask yield `none`. -/
theorem claim4_witness :
    (RetryStateImpl.create ⟨0, 3, [404]⟩ ⟨none, none, none, none⟩).1 = none :=
  (claim4_amended ⟨0, 3, [404]⟩ ⟨none, none, none, none⟩).mpr ⟨rfl, rfl, rfl⟩

/-- Counterexample for claim C5 as stated: the retriable-status-codes
header is consumed into the constructed state (codes 409 and 429 are
appended) yet survives `create` un-stripped, so it is forwarded upstream. -/
theorem claim5_counterexample :
    (RetryStateImpl.create ⟨RetryPolicy.RETRY_ON_5XX, 1, []⟩
        ⟨none, none, none, some "409,429"⟩).1
      = some ⟨RetryPolicy.RETRY_ON_5XX, 1, [409, 429], false⟩ ∧
    (RetryStateImpl.create ⟨RetryPolicy.RETRY_ON_5XX, 1, []⟩
        ⟨none, none, none, some "409,429"⟩).2.envoyRetriableStatusCodes
      = some "409,429" := by
  decide

/-- Claim C5 as amended: after `create` returns, the retry-on, gRPC
retry-on and max-retries request headers have been stripped, but the custom
retriable status-code header — although consumed — is left in the request
headers unchanged. -/
theorem claim5_amended (p : RetryPolicy) (h : RequestHeaders) :
    (RetryStateImpl.create p h).2.envoyRetryOn = none ∧
    (RetryStateImpl.create p h).2.envoyRetryGrpcOn = none ∧
    (RetryStateImpl.create p h).2.envoyMaxRetries = none ∧
    (RetryStateImpl.create p h).2.envoyRetriableStatusCodes
      = h.envoyRetriableStatusCodes := by
  simp [RetryStateImpl.create]

/-- Claim C10: `create` removes the retry-on, gRPC retry-on and max-retries
request headers unconditionally — for every route policy and every request
headers, hence in particular when it returns `none` because no retry policy
or header signal is present. -/
theorem claim10_unconditional_strip (p : RetryPolicy) (h : RequestHeaders) :
    (RetryStateImpl.create p h).2.envoyRetryOn = none ∧
    (RetryStateImpl.create p h).2.envoyRetryGrpcOn = none ∧
    (RetryStateImpl.create p h).2.envoyMaxRetries = none := by
  simp [RetryStateImpl.create]

/-- Counterexample for claim C6 as stated: in the scenario (route retry-on
= 5xx, numRetries = 2, no header overrides; first outcome 503 retried, then
outcome 200), the second `shouldRetry` call does NOT leave
`retries_remaining` at 1 — the code decrements on every call with budget
left, so it becomes 0. -/
theorem claim6_counterexample :
    (RetryStateImpl.shouldRetry
        (RetryStateImpl.shouldRetry
          (RetryStateImpl.construct ⟨RetryPolicy.RETRY_ON_5XX, 2, []⟩
            ⟨none, none, none, none⟩)
          true true true).state
        false true true).state.retriesRemaining = 0 ∧
    ¬ (RetryStateImpl.shouldRetry
        (RetryStateImpl.shouldRetry
          (RetryStateImpl.construct ⟨RetryPolicy.RETRY_ON_5XX, 2, []⟩
            ⟨none, none, none, none⟩)
          true true true).state
        false true true).state.retriesRemaining = 1 := by
  decide

/-- Claim C6 as amended: route retry-on = 5xx, numRetries = 2, no header
overrides.  A 503 outcome is retriable, a 200 outcome is not; the first
call `shouldRetry true` returns `Yes`, drops `retries_remaining` to 1, arms
the callback and timer and acquires one limiter token; the second call
`shouldRetry false` returns `No`, increments the retry-success statistic
once, releases the token, acquires none — and decrements
`retries_remaining` again, to 0 (the decrement is per call with budget
left, not per granted retry). -/
theorem claim6_scenario :
    (RetryStateImpl.construct ⟨RetryPolicy.RETRY_ON_5XX, 2, []⟩
        ⟨none, none, none, none⟩).retriesRemaining = 2 ∧
    RetryStateImpl.wouldRetryFromHeaders
      (RetryStateImpl.construct ⟨RetryPolicy.RETRY_ON_5XX, 2, []⟩ ⟨none, none, none, none⟩)
      ⟨503, false, false, none⟩ = true ∧
    RetryStateImpl.wouldRetryFromHeaders
      (RetryStateImpl.construct ⟨RetryPolicy.RETRY_ON_5XX, 2, []⟩ ⟨none, none, none, none⟩)
      ⟨200, false, false, none⟩ = false ∧
    (RetryStateImpl.shouldRetry
        (RetryStateImpl.construct ⟨RetryPolicy.RETRY_ON_5XX, 2, []⟩ ⟨none, none, none, none⟩)
        true true true)
      = { status := RetryStatus.Yes
          state := ⟨RetryPolicy.RETRY_ON_5XX, 1, [], true⟩
          effects :=
            { limiterIncs := 1, limiterDecs := 0, retrySuccessIncs := 0,
              retryOverflowIncs := 0, retryIncs := 1, timerArms := 1 } } ∧
    (RetryStateImpl.shouldRetry (⟨RetryPolicy.RETRY_ON_5XX, 1, [], true⟩ : RetryStateImpl)
        false true true)
      = { status := RetryStatus.No
          state := ⟨RetryPolicy.RETRY_ON_5XX, 0, [], false⟩
          effects :=
            { limiterIncs := 0, limiterDecs := 1, retrySuccessIncs := 1,
              retryOverflowIncs := 0, retryIncs := 0, timerArms := 0 } } := by
  decide

/-- Counterexample for claim C7 as stated: with route numRetries = 0 and no
max-retries header, `retries_remaining` does not start at 0 — the
constructor initializes it to max(1, numRetries) = 1 — and the first
`shouldRetry` call (here on a non-retriable outcome) returns `No`, not
`NoRetryLimitExceeded`. -/
theorem claim7_counterexample :
    (RetryStateImpl.construct ⟨RetryPolicy.RETRY_ON_5XX, 0, []⟩
        ⟨none, none, none, none⟩).retriesRemaining = 1 ∧
    (RetryStateImpl.shouldRetry
        (RetryStateImpl.construct ⟨RetryPolicy.RETRY_ON_5XX, 0, []⟩ ⟨none, none, none, none⟩)
        false true true).status = RetryStatus.No := by
  decide

/-- Claim C7 as amended: with route numRetries = 0 and no max-retries
header, `retries_remaining` starts at max(1, 0) = 1, not 0; and whenever
`retries_remaining` is 0 at call time (reachable e.g. through a max-retries
header of "0" with a non-zero bitmask), `shouldRetry` returns
`NoRetryLimitExceeded` without incrementing the shared limiter. -/
theorem claim7_no_token_when_exhausted :
    (∀ (p : RetryPolicy) (h : RequestHeaders),
      p.numRetries = 0 → h.envoyMaxRetries = none →
      (RetryStateImpl.construct p h).retriesRemaining = 1) ∧
    (∀ (st : RetryStateImpl) (wr cc fe : Bool), st.retriesRemaining = 0 →
      (RetryStateImpl.shouldRetry st wr cc fe).status = RetryStatus.NoRetryLimitExceeded ∧
      (RetryStateImpl.shouldRetry st wr cc fe).effects.limiterIncs = 0) := by
  constructor
  · intro p h hp hm
    simp [RetryStateImpl.construct, hp, hm]
  · intro st wr cc fe h0
    by_cases hb : st.callbackArmed <;>
      simp [RetryStateImpl.shouldRetry, RetryStateImpl.resetRetry, hb, h0]

/-- Witness for C7 (amended): a concrete zero-retry policy, and a concrete
exhausted state (as produced by a max-retries header of "0"). -/
theorem claim7_witness :
    (RetryStateImpl.construct ⟨RetryPolicy.RETRY_ON_5XX, 0, []⟩
        ⟨none, none, none, none⟩).retriesRemaining = 1 ∧
    ((RetryStateImpl.shouldRetry ⟨1, 0, [], false⟩ true true true).status
        = RetryStatus.NoRetryLimitExceeded ∧
      (RetryStateImpl.shouldRetry ⟨1, 0, [], false⟩ true true true).effects.limiterIncs
        = 0) :=
  ⟨claim7_no_token_when_exhausted.1 ⟨RetryPolicy.RETRY_ON_5XX, 0, []⟩
      ⟨none, none, none, none⟩ rfl rfl,
    claim7_no_token_when_exhausted.2 ⟨1, 0, [], false⟩ true true true rfl⟩

/-- Counterexample for claim C9 as stated: the max-retries header
"4294967296" parses as the unsigned integer 2^32, the merged bitmask is
non-zero, yet `retries_remaining` is set to 0, not to 2^32 — the parsed
`uint64_t` is truncated when stored into the `uint32_t` field. -/
theorem claim9_counterexample :
    StringUtil.atoull "4294967296" = some 4294967296 ∧
    RetryStateImpl.mergedRetryOn ⟨RetryPolicy.RETRY_ON_5XX, 5, []⟩
      ⟨none, none, some "4294967296", none⟩ ≠ 0 ∧
    (RetryStateImpl.construct ⟨RetryPolicy.RETRY_ON_5XX, 5, []⟩
        ⟨none, none, some "4294967296", none⟩).retriesRemaining = 0 := by
  decide

/-- Claim C9 as amended: when the merged retry-on bitmask is non-zero and
the max-retries header parses as the unsigned integer n, `retries_remaining`
is set to n mod 2^32 — hence to exactly n whenever n < 2^32, including n
smaller than the route's numRetries and n = 0; when the merged bitmask is
zero the header is ignored and `retries_remaining` keeps max(1, numRetries). -/
theorem claim9_max_retries_override :
    (∀ (p : RetryPolicy) (h : RequestHeaders) (s : String) (n : Nat),
      RetryStateImpl.mergedRetryOn p h ≠ 0 → h.envoyMaxRetries = some s →
      StringUtil.atoull s = some n →
      (RetryStateImpl.construct p h).retriesRemaining = n % 2 ^ 32) ∧
    (∀ (p : RetryPolicy) (h : RequestHeaders) (s : String) (n : Nat),
      RetryStateImpl.mergedRetryOn p h ≠ 0 → h.envoyMaxRetries = some s →
      StringUtil.atoull s = some n → n < 2 ^ 32 →
      (RetryStateImpl.construct p h).retriesRemaining = n) ∧
    (∀ (p : RetryPolicy) (h : RequestHeaders),
      RetryStateImpl.mergedRetryOn p h = 0 →
      (RetryStateImpl.construct p h).retriesRemaining = max 1 p.numRetries) := by
  refine ⟨?_, ?_, ?_⟩
  · intro p h s n hOn hm ha
    simp [RetryStateImpl.construct, hOn, hm, ha]
  · intro p h s n hOn hm ha hlt
    simp [RetryStateImpl.construct, hOn, hm, ha]
    omega
  · intro p h hOn
    simp [RetryStateImpl.construct, hOn]

/-- Witness for C9 (amended): a "0" override forces 0 even though the route
allows 5 retries; "3" yields exactly 3; with a zero bitmask a "7" override
is ignored and the countdown is max(1, 0) = 1. -/
theorem claim9_witness :
    (RetryStateImpl.construct ⟨RetryPolicy.RETRY_ON_5XX, 5, []⟩
        ⟨none, none, some "0", none⟩).retriesRemaining = 0 ∧
    (RetryStateImpl.construct ⟨RetryPolicy.RETRY_ON_5XX, 5, []⟩
        ⟨none, none, some "3", none⟩).retriesRemaining = 3 ∧
    (RetryStateImpl.construct ⟨0, 0, []⟩
        ⟨none, none, some "7", none⟩).retriesRemaining = 1 :=
  ⟨by
    simpa using
      claim9_max_retries_override.1 ⟨RetryPolicy.RETRY_ON_5XX, 5, []⟩
        ⟨none, none, some "0", none⟩ "0" 0 (by decide) rfl (by decide),
    claim9_max_retries_override.2.1 ⟨RetryPolicy.RETRY_ON_5XX, 5, []⟩
      ⟨none, none, some "3", none⟩ "3" 3 (by decide) rfl (by decide) (by decide),
    by
      simpa using
        claim9_max_retries_override.2.2 ⟨0, 0, []⟩ ⟨none, none, some "7", none⟩
          (by decide)⟩
